import Mathlib

/-!
Verification development for the goefidash realtime ECU acquisition core.

The Go sources are shallowly embedded: byte buffers become `List Nat`
(each entry a byte value `< 256`), Go `float64` channels become `ℚ`,
Go `uint8/uint16` become `Nat`, `int8/int16` become `Int` with the
two's-complement reinterpretation made explicit, and fallible code
returns `Except`/`Option`.  Definitions mirror the corresponding Go
functions (`internal/ecu/speeduino.go`, the server odometer/speed code,
and the NMEA GPS decoder) and keep their names.
-/

namespace GoEfiDash

/-- Reinterpretation of a byte as Go `int8` (two's complement). -/
def int8OfByte (b : Nat) : Int :=
  if b < 128 then (b : Int) else (b : Int) - 256

/-- Reinterpretation of a 16-bit word as Go `int16` (two's complement). -/
def int16OfWord (w : Nat) : Int :=
  if w < 32768 then (w : Int) else (w : Int) - 65536

/-- The `u8` accessor closure of `parseSecondaryData`: in-range byte, else 0. -/
def secU8 (d : List Nat) (off : Nat) : Nat :=
  if off < d.length then d.getD off 0 else 0

/-- The `s8` accessor closure of `parseSecondaryData`: in-range `int8`, else 0. -/
def secS8 (d : List Nat) (off : Nat) : Int :=
  if off < d.length then int8OfByte (d.getD off 0) else 0

/-- The `u16le` accessor closure of `parseSecondaryData`:
little-endian 16-bit read when both bytes are in range, else 0. -/
def secU16le (d : List Nat) (off : Nat) : Nat :=
  if off + 1 < d.length then d.getD off 0 + 256 * d.getD (off + 1) 0 else 0

/-- The `s16le` accessor closure of `parseSecondaryData`. -/
def secS16le (d : List Nat) (off : Nat) : Int :=
  int16OfWord (secU16le d off)

/-- Unchecked byte access used by `parsePrimaryData` (`d[i]` in Go). -/
def priU8 (d : List Nat) (i : Nat) : Nat := d.getD i 0

/-- Unchecked little-endian 16-bit access used by `parsePrimaryData`. -/
def priU16le (d : List Nat) (i : Nat) : Nat :=
  d.getD i 0 + 256 * d.getD (i + 1) 0

/-- Model of `DataFrame` from `internal/ecu/provider.go`.  Every field defaults to its
Go zero value, matching `&DataFrame{}`. -/
structure DataFrame where
  RPM : Nat := 0
  MAP : Nat := 0
  TPS : ℚ := 0
  AFR : ℚ := 0
  Lambda : ℚ := 0
  Advance : Int := 0
  Advance1 : Int := 0
  Advance2 : Int := 0
  Coolant : ℚ := 0
  IAT : ℚ := 0
  PulseWidth1 : ℚ := 0
  PulseWidth2 : ℚ := 0
  PulseWidth3 : ℚ := 0
  PulseWidth4 : ℚ := 0
  VE1 : Nat := 0
  VE2 : Nat := 0
  VECurr : Nat := 0
  AFRTarget : ℚ := 0
  DutyCycle : ℚ := 0
  GammaEnrich : Nat := 0
  EGOCorrection : Nat := 0
  AirCorrection : Nat := 0
  WarmupEnrich : Nat := 0
  BatCorrection : Nat := 0
  ASECurr : Nat := 0
  BaroCorrection : Nat := 0
  AccelEnrich : Nat := 0
  BatteryVoltage : ℚ := 0
  Dwell : ℚ := 0
  DwellActual : ℚ := 0
  BoostTarget : Nat := 0
  BoostDuty : Nat := 0
  VSS : Nat := 0
  Gear : Nat := 0
  FuelPressure : Nat := 0
  OilPressure : Nat := 0
  VVT1Angle : ℚ := 0
  VVT1Target : ℚ := 0
  VVT1Duty : ℚ := 0
  VVT2Angle : ℚ := 0
  VVT2Target : ℚ := 0
  VVT2Duty : ℚ := 0
  FlexPct : Nat := 0
  FlexFuelCor : Nat := 0
  FlexIgnCor : Int := 0
  AFR2 : ℚ := 0
  EMAP : Nat := 0
  Baro : Nat := 0
  IdleLoad : Nat := 0
  CLIdleTarget : Nat := 0
  KnockCount : Nat := 0
  KnockCor : Nat := 0
  Running : Bool := false
  Cranking : Bool := false
  ASE : Bool := false
  Warmup : Bool := false
  DFCOOn : Bool := false
  Sync : Bool := false
  FanStatus : Bool := false
  FuelLoad : ℚ := 0
  IgnLoad : ℚ := 0
  MAPdot : Int := 0
  RPMdot : Int := 0
  Errors : Nat := 0
  SyncLoss : Nat := 0
  LoopsPerSecond : Nat := 0
  FreeRAM : Nat := 0
  FanDuty : ℚ := 0
  SDStatus : Nat := 0
  Secl : Nat := 0
  deriving DecidableEq

/-- Model of `computeDerived` from `speeduino.go`: lambda and injector duty cycle. -/
def computeDerived (stoich : ℚ) (f : DataFrame) : DataFrame :=
  let f1 := if 0 < stoich then { f with Lambda := f.AFR / stoich } else f
  if 0 < f1.RPM then
    let cycleTimeMs : ℚ := 60000 / (f1.RPM : ℚ) * 2
    if 0 < cycleTimeMs then
      { f1 with DutyCycle := f1.PulseWidth1 / cycleTimeMs * 100 }
    else f1
  else f1

/-- Fields of `parseSecondaryData` assigned unconditionally (before the
`n > 75` extended block). -/
def parseSecondaryBase (d : List Nat) : DataFrame :=
  { Secl := secU8 d 0
    DFCOOn := (secU8 d 1).testBit 4
    Running := (secU8 d 2).testBit 0
    Cranking := (secU8 d 2).testBit 1
    ASE := (secU8 d 2).testBit 2
    Warmup := (secU8 d 2).testBit 3
    Dwell := (secU8 d 3 : ℚ) * 0.1
    MAP := secU16le d 4
    IAT := (secU8 d 6 : ℚ) - 40
    Coolant := (secU8 d 7 : ℚ) - 40
    BatCorrection := secU8 d 8
    BatteryVoltage := (secU8 d 9 : ℚ) * 0.1
    AFR := (secU8 d 10 : ℚ) * 0.1
    EGOCorrection := secU8 d 11
    AirCorrection := secU8 d 12
    WarmupEnrich := secU8 d 13
    RPM := secU16le d 14
    AccelEnrich := secU8 d 16
    GammaEnrich := secU8 d 17
    VECurr := secU8 d 18
    VE1 := secU8 d 18
    AFRTarget := (secU8 d 19 : ℚ) * 0.1
    PulseWidth1 := (secU16le d 20 : ℚ) * 0.1
    Advance := secS8 d 23
    TPS := (secU8 d 24 : ℚ)
    LoopsPerSecond := secU16le d 25
    FreeRAM := secU16le d 27
    BoostTarget := secU8 d 29
    BoostDuty := secU8 d 30
    Sync := (secU8 d 31).testBit 7
    RPMdot := secS16le d 32
    FlexPct := secU8 d 34
    FlexFuelCor := secU8 d 35
    FlexIgnCor := secS8 d 36
    IdleLoad := secU8 d 37
    AFR2 := (secU8 d 39 : ℚ) * 0.1
    Baro := secU8 d 40
    Errors := secU8 d 74 }

/-- Model of `parseSecondaryData` from `speeduino.go`: decodes the secondary serial
layout.  Total on every payload; out-of-range offsets read as zero via the
guarded accessors.  The extended block applies only when `len(d) > 75`. -/
def parseSecondaryData (stoich : ℚ) (d : List Nat) : DataFrame :=
  let base := parseSecondaryBase d
  let f :=
    if 75 < d.length then
      { base with
        PulseWidth2 := (secU16le d 76 : ℚ) * 0.1
        PulseWidth3 := (secU16le d 78 : ℚ) * 0.1
        PulseWidth4 := (secU16le d 80 : ℚ) * 0.1
        FuelLoad := (secS16le d 84 : ℚ)
        IgnLoad := (secS16le d 86 : ℚ)
        CLIdleTarget := secU8 d 91 * 10
        MAPdot := secS8 d 92
        VVT1Angle := (secS8 d 93 : ℚ)
        VVT1Target := (secU8 d 94 : ℚ)
        VVT1Duty := (secU8 d 95 : ℚ)
        BaroCorrection := secU8 d 98
        ASECurr := secU8 d 99
        VSS := secU16le d 100
        Gear := secU8 d 102
        FuelPressure := secU8 d 103
        OilPressure := secU8 d 104
        FanStatus := (secU8 d 106).testBit 3
        VVT2Angle := (secS8 d 107 : ℚ)
        VVT2Target := (secU8 d 108 : ℚ)
        VVT2Duty := (secU8 d 109 : ℚ)
        VE1 := secU8 d 113
        VE2 := secU8 d 114
        Advance1 := secS8 d 115
        Advance2 := secS8 d 116
        SDStatus := secU8 d 118 }
    else base
  computeDerived stoich f

/-- The `primaryOCHBlockSize` constant (130) from `speeduino.go`. -/
def primaryOCHBlockSize : Nat := 130

/-- Model of `parsePrimaryData` from `speeduino.go`: decodes the 130-byte OCH block.
The Go code indexes `d` without bounds checks up to `d[129]`, so a payload
shorter than 130 bytes makes it panic; the `none` branch models that panic.
On a payload of at least 130 bytes every access is in range and `getD`
coincides with Go indexing. -/
def parsePrimaryData (stoich : ℚ) (d : List Nat) : Option DataFrame :=
  if d.length < primaryOCHBlockSize then none
  else some (computeDerived stoich
    { Secl := priU8 d 0
      DFCOOn := (priU8 d 1).testBit 4
      Running := (priU8 d 2).testBit 0
      Cranking := (priU8 d 2).testBit 1
      ASE := (priU8 d 2).testBit 2
      Warmup := (priU8 d 2).testBit 3
      SyncLoss := priU8 d 3
      MAP := priU16le d 4
      IAT := (priU8 d 6 : ℚ) - 40
      Coolant := (priU8 d 7 : ℚ) - 40
      BatCorrection := priU8 d 8
      BatteryVoltage := (priU8 d 9 : ℚ) * 0.1
      AFR := (priU8 d 10 : ℚ) * 0.1
      EGOCorrection := priU8 d 11
      AirCorrection := priU8 d 12
      WarmupEnrich := priU8 d 13
      RPM := priU16le d 14
      AccelEnrich := priU8 d 16
      GammaEnrich := priU16le d 17
      VE1 := priU8 d 19
      VE2 := priU8 d 20
      AFRTarget := (priU8 d 21 : ℚ) * 0.1
      Advance := int8OfByte (priU8 d 24)
      TPS := (priU8 d 25 : ℚ) * 0.5
      LoopsPerSecond := priU16le d 26
      FreeRAM := priU16le d 28
      BoostTarget := priU8 d 30
      BoostDuty := priU8 d 31
      Sync := (priU8 d 32).testBit 7
      RPMdot := int16OfWord (priU16le d 33)
      FlexPct := priU8 d 35
      FlexFuelCor := priU8 d 36
      FlexIgnCor := int8OfByte (priU8 d 37)
      IdleLoad := priU8 d 38
      AFR2 := (priU8 d 40 : ℚ) * 0.1
      Baro := priU8 d 41
      Errors := priU8 d 75
      PulseWidth1 := (priU16le d 76 : ℚ) * 0.001
      PulseWidth2 := (priU16le d 78 : ℚ) * 0.001
      PulseWidth3 := (priU16le d 80 : ℚ) * 0.001
      PulseWidth4 := (priU16le d 82 : ℚ) * 0.001
      FuelLoad := (int16OfWord (priU16le d 86) : ℚ)
      IgnLoad := (int16OfWord (priU16le d 88) : ℚ)
      Dwell := (priU16le d 90 : ℚ) * 0.001
      CLIdleTarget := priU8 d 92 * 10
      MAPdot := int16OfWord (priU16le d 93)
      VVT1Angle := (int16OfWord (priU16le d 95) : ℚ) * 0.5
      VVT1Target := (priU8 d 97 : ℚ) * 0.5
      VVT1Duty := (priU8 d 98 : ℚ) * 0.5
      BaroCorrection := priU8 d 101
      VECurr := priU8 d 102
      ASECurr := priU8 d 103
      VSS := priU16le d 104
      Gear := priU8 d 106
      FuelPressure := priU8 d 107
      OilPressure := priU8 d 108
      FanStatus := (priU8 d 110).testBit 3
      VVT2Angle := (int16OfWord (priU16le d 111) : ℚ) * 0.5
      VVT2Target := (priU8 d 113 : ℚ) * 0.5
      VVT2Duty := (priU8 d 114 : ℚ) * 0.5
      Advance1 := int8OfByte (priU8 d 118)
      Advance2 := int8OfByte (priU8 d 119)
      SDStatus := priU8 d 120
      EMAP := priU16le d 121
      FanDuty := (priU8 d 123 : ℚ) * 0.5
      DwellActual := (priU16le d 125 : ℚ) * 0.001
      KnockCount := priU8 d 128
      KnockCor := priU8 d 129 })

/-- One bit step of the reflected CRC-32 (IEEE 802.3) update, polynomial
`0xEDB88320`; models one iteration of the table-free form of Go's
`hash/crc32` IEEE checksum. -/
def crc32Round (c : Nat) : Nat :=
  if c % 2 = 1 then (c / 2) ^^^ 0xEDB88320 else c / 2

/-- Per-byte CRC-32 update: xor in the byte, then eight bit rounds. -/
def crc32Byte (c b : Nat) : Nat :=
  crc32Round^[8] (c ^^^ (b % 256))

/-- Model of `crc32.ChecksumIEEE` from Go's standard library, modelled bit-level:
initial value `0xFFFFFFFF`, final xor `0xFFFFFFFF`. -/
def crc32 (data : List Nat) : Nat :=
  (data.foldl crc32Byte 0xFFFFFFFF) ^^^ 0xFFFFFFFF

/-- The four big-endian bytes of a 32-bit value
(`binary.BigEndian.PutUint32`). -/
def beBytes4 (x : Nat) : List Nat :=
  [x / 2 ^ 24 % 256, x / 2 ^ 16 % 256, x / 2 ^ 8 % 256, x % 256]

/-- Recompose a 32-bit value from four big-endian bytes
(`binary.BigEndian.Uint32`). -/
def beUint32 (b : List Nat) : Nat :=
  b.getD 0 0 * 2 ^ 24 + b.getD 1 0 * 2 ^ 16 + b.getD 2 0 * 2 ^ 8 + b.getD 3 0

/-- Model of `wrapMsEnvelope` from `speeduino.go`:
`<size_hi> <size_lo> <payload...> <crc32_4bytes_BE>`, the size being
`uint16(len(payload))`. -/
def wrapMsEnvelope (payload : List Nat) : List Nat :=
  let payloadLen := payload.length % 65536
  payloadLen / 256 % 256 :: payloadLen % 256 :: (payload ++ beBytes4 (crc32 payload))

/-- Error kinds produced by the driver, mirroring the `fmt.Errorf` sites in
`speeduino.go`. -/
inductive SpeedErr where
  | notConnected : SpeedErr
  | unknownProto : SpeedErr
  | sizeHeaderIncomplete : SpeedErr
  | invalidPayloadSize (n : Nat) : SpeedErr
  | payloadCrcIncomplete : SpeedErr
  | crcMismatch (got want : Nat) : SpeedErr
  | payloadSizeUnexpected (n : Nat) : SpeedErr
  | headerIncomplete : SpeedErr
  | echoMismatch (got want : Nat) : SpeedErr
  | typeMismatch (got want : Nat) : SpeedErr
  | invalidLength (n : Nat) : SpeedErr
  | dataIncomplete : SpeedErr
  | ochPanicShort : SpeedErr
  deriving DecidableEq

/-- Model of `readMsEnvelopeResponse` from `speeduino.go`, over a synthetic byte
source: read the 2-byte big-endian size header, reject sizes of zero or
greater than 1024, read `size + 4` further bytes, and validate the CRC-32
of the payload against the trailing four big-endian bytes. -/
def readMsEnvelopeResponse (input : List Nat) : Except SpeedErr (List Nat) :=
  if input.length < 2 then .error .sizeHeaderIncomplete
  else
    let respPayloadSize := input.getD 0 0 * 256 + input.getD 1 0
    if respPayloadSize = 0 ∨ respPayloadSize > 1024 then
      .error (.invalidPayloadSize respPayloadSize)
    else
      let rest := input.drop 2
      if rest.length < respPayloadSize + 4 then .error .payloadCrcIncomplete
      else
        let payload := rest.take respPayloadSize
        let respCRC := beUint32 ((rest.drop respPayloadSize).take 4)
        let calcCRC := crc32 payload
        if respCRC ≠ calcCRC then .error (.crcMismatch respCRC calcCRC)
        else .ok payload

/-- The payload-size dispatch of `requestPrimary` (`speeduino.go` lines
828-840): 130 bytes is the pure OCH block, 131 bytes carries a one-byte
status prefix, more than 130 bytes keeps the trailing 130, anything
shorter is rejected. -/
def selectOCHData (payload : List Nat) : Option (List Nat) :=
  if payload.length = primaryOCHBlockSize then some payload
  else if payload.length = primaryOCHBlockSize + 1 then some (payload.drop 1)
  else if payload.length > primaryOCHBlockSize then
    some (payload.drop (payload.length - primaryOCHBlockSize))
  else none

/-- The four `protocolMode` values of `speeduino.go`. -/
inductive ProtocolMode where
  | secondaryN : ProtocolMode
  | secondaryA : ProtocolMode
  | secondaryR : ProtocolMode
  | primary : ProtocolMode
  deriving DecidableEq

/-- The mutable driver fields of the `Speeduino` struct that the poll paths
can observe or change. -/
structure SpeeduinoState where
  connected : Bool
  proto : ProtocolMode
  canID : Nat
  stoich : ℚ
  deriving DecidableEq

/-- Model of `requestSecondaryN` from `speeduino.go` over a synthetic byte source:
read the 3-byte header, require echo `0x6E` and type `0x32`, require a
length in `(0, 256]`, read that many data bytes, and parse.  No branch
modifies the driver state. -/
def requestSecondaryN (s : SpeeduinoState) (input : List Nat) :
    Except SpeedErr DataFrame × SpeeduinoState :=
  if input.length < 3 then (.error .headerIncomplete, s)
  else if input.getD 0 0 ≠ 0x6E then (.error (.echoMismatch (input.getD 0 0) 0x6E), s)
  else if input.getD 1 0 ≠ 0x32 then (.error (.typeMismatch (input.getD 1 0) 0x32), s)
  else
    let dataLen := input.getD 2 0
    if dataLen = 0 ∨ dataLen > 256 then (.error (.invalidLength dataLen), s)
    else if (input.drop 3).length < dataLen then (.error .dataIncomplete, s)
    else (.ok (parseSecondaryData s.stoich ((input.drop 3).take dataLen)), s)

/-- Model of `requestSecondaryA` from `speeduino.go` over a synthetic byte source:
read 76 bytes, require echo `0x41`, parse the 75 data bytes. -/
def requestSecondaryA (s : SpeeduinoState) (input : List Nat) :
    Except SpeedErr DataFrame × SpeeduinoState :=
  if input.length < 76 then (.error .dataIncomplete, s)
  else if input.getD 0 0 ≠ 0x41 then (.error (.echoMismatch (input.getD 0 0) 0x41), s)
  else (.ok (parseSecondaryData s.stoich ((input.take 76).drop 1)), s)

/-- Model of `requestSecondary` (the plain `'r'` poll) from `speeduino.go` over a
synthetic byte source: read `2 + 119` bytes, require echo `'r'` and type
`0x30`, parse the data bytes. -/
def requestSecondary (s : SpeeduinoState) (input : List Nat) :
    Except SpeedErr DataFrame × SpeeduinoState :=
  if input.length < 2 + 119 then (.error .dataIncomplete, s)
  else if input.getD 0 0 ≠ 0x72 then (.error (.echoMismatch (input.getD 0 0) 0x72), s)
  else if input.getD 1 0 ≠ 0x30 then (.error (.typeMismatch (input.getD 1 0) 0x30), s)
  else (.ok (parseSecondaryData s.stoich ((input.take (2 + 119)).drop 2)), s)

/-- Model of `requestPrimary` from `speeduino.go` over a synthetic byte source:
decode the msEnvelope response, dispatch on the payload size, and parse the
130-byte OCH block.  `ochPanicShort` is unreachable (the selected data is
always exactly 130 bytes); it models the Go index panic. -/
def requestPrimaryResult (s : SpeeduinoState) (input : List Nat) :
    Except SpeedErr DataFrame :=
  match readMsEnvelopeResponse input with
  | .error e => .error e
  | .ok payload =>
    match selectOCHData payload with
    | none => .error (.payloadSizeUnexpected payload.length)
    | some data =>
      match parsePrimaryData s.stoich data with
      | none => .error .ochPanicShort
      | some f => .ok f

/-- The state-and-result pair of a framed-mode poll; like every poll path
it leaves the driver state untouched. -/
def requestPrimary (s : SpeeduinoState) (input : List Nat) :
    Except SpeedErr DataFrame × SpeeduinoState :=
  (requestPrimaryResult s input, s)

/-- Model of `RequestData` from `speeduino.go`: guard on the connected flag and
dispatch on the detected protocol mode. -/
def RequestData (s : SpeeduinoState) (input : List Nat) :
    Except SpeedErr DataFrame × SpeeduinoState :=
  if ¬s.connected then (.error .notConnected, s)
  else
    match s.proto with
    | .secondaryN => requestSecondaryN s input
    | .secondaryA => requestSecondaryA s input
    | .secondaryR => requestSecondary s input
    | .primary => requestPrimary s input

/-- Model of `Close` from `speeduino.go`: the only site that clears the connected
flag. -/
def closeDriver (s : SpeeduinoState) : SpeeduinoState :=
  { s with connected := false }

/-- The protocol-preference defaulting in `NewSpeeduino`: an empty
configured protocol becomes `"auto"`. -/
def newSpeeduinoProtocol (cfgProtocol : String) : String :=
  if cfgProtocol = "" then "auto" else cfgProtocol

/-- Model of `tryMsEnvelope` condition of `Connect` (`speeduino.go` line 150):
whether the connect attempt issues the msEnvelope-family handshakes. -/
def tryMsEnvelope (protocol : String) : Bool :=
  protocol = "auto" || protocol = "msenvelope"

/-- Model of `trySecondary` condition of `Connect` (`speeduino.go` line 151):
whether the connect attempt issues the plain-family handshakes. -/
def trySecondary (protocol : String) : Bool :=
  protocol = "auto" || protocol = "secondary"

/-- The ordered handshake probes a `Connect` call issues, by protocol
preference: msEnvelope `'Q'` then msEnvelope `'r'` when the msEnvelope
family is tried, then plain `'n'` then plain `'A'` when the plain family is
tried. -/
def connectAttempts (protocol : String) : List String :=
  (if tryMsEnvelope protocol then ["Q-msenvelope", "r-msenvelope"] else []) ++
    (if trySecondary protocol then ["n-plain", "A-plain"] else [])

/-- Model of `gps.Data` from the GPS provider package: a single fix. -/
structure GpsData where
  Valid : Bool := false
  Latitude : ℚ := 0
  Longitude : ℚ := 0
  Speed : ℚ := 0
  Heading : ℚ := 0
  Altitude : ℚ := 0
  Satellites : Int := 0
  FixQuality : Int := 0
  HDOP : ℚ := 0
  Timestamp : List Char := []
  deriving DecidableEq

/-- Model of `SpeedData` from the server package: unified speed value and source
tag (`"vss"`, `"gps"`, or `"none"`). -/
structure SpeedData where
  Value : ℚ
  Source : String
  deriving DecidableEq

/-- Model of `calcSpeed` from the server package: prefer the ECU vehicle speed
sensor when present and positive, fall back to a valid GPS fix, else zero
with source `"none"`. -/
def calcSpeed (ecuData : Option DataFrame) (gpsData : Option GpsData) : SpeedData :=
  match ecuData with
  | some e =>
    if 0 < e.VSS then { Value := (e.VSS : ℚ), Source := "vss" }
    else
      match gpsData with
      | some g => if g.Valid then { Value := g.Speed, Source := "gps" }
                  else { Value := 0, Source := "none" }
      | none => { Value := 0, Source := "none" }
  | none =>
    match gpsData with
    | some g => if g.Valid then { Value := g.Speed, Source := "gps" }
                else { Value := 0, Source := "none" }
    | none => { Value := 0, Source := "none" }

/-- The odometer fields of the `Server` struct:
`(odoTotal, odoTrip, lastGPSLat, lastGPSLon, lastGPSValid)`. -/
structure OdoState where
  total : ℚ := 0
  trip : ℚ := 0
  lastLat : ℚ := 0
  lastLon : ℚ := 0
  lastValid : Bool := false
  deriving DecidableEq

/-- Model of `updateOdometer` from the server package, parametrized by the distance
function `hav` standing for `haversineKm` (whose trigonometry lives in Go
`float64` math): first valid fix seeds the position; a jump above 0.5 km
reseeds without accumulating; a move above 0.002 km accumulates onto both
counters and updates the position; smaller moves change nothing. -/
def updateOdometer (hav : ℚ → ℚ → ℚ → ℚ → ℚ) (s : OdoState) (data : GpsData) :
    OdoState :=
  if ¬s.lastValid then
    { s with lastLat := data.Latitude, lastLon := data.Longitude, lastValid := true }
  else
    let dist := hav s.lastLat s.lastLon data.Latitude data.Longitude
    if dist > 0.5 then
      { s with lastLat := data.Latitude, lastLon := data.Longitude }
    else if dist > 0.002 then
      { s with
        total := s.total + dist
        trip := s.trip + dist
        lastLat := data.Latitude
        lastLon := data.Longitude }
    else s

/-- The GPS-poller gate in `pollLoop`: the odometer is updated only for
fixes with `Valid` and `Speed > 1`. -/
def gpsOdoTick (hav : ℚ → ℚ → ℚ → ℚ → ℚ) (s : OdoState) (data : GpsData) :
    OdoState :=
  if data.Valid && data.Speed > 1 then updateOdometer hav s data else s

/-- Model of `handleResetTrip` from the server package: zero only the trip
counter. -/
def resetTrip (s : OdoState) : OdoState :=
  { s with trip := 0 }

/-- An odometer history event: either a GPS poll tick or a user trip
reset. -/
inductive OdoOp where
  | tick (data : GpsData) : OdoOp
  | reset : OdoOp

/-- Apply one odometer history event. -/
def applyOdoOp (hav : ℚ → ℚ → ℚ → ℚ → ℚ) (s : OdoState) : OdoOp → OdoState
  | .tick data => gpsOdoTick hav s data
  | .reset => resetTrip s

/-- Run a sequence of odometer history events. -/
def runOdoOps (hav : ℚ → ℚ → ℚ → ℚ → ℚ) (s : OdoState) (ops : List OdoOp) :
    OdoState :=
  ops.foldl (applyOdoOp hav) s

/-- ASCII whitespace recognized by `strings.TrimSpace` on the odometer
file's content. -/
def isSpaceChar (c : Char) : Bool :=
  c = ' ' || c = '\t' || c = '\n' || c = '\r'

/-- Model of `strings.TrimSpace`: drop whitespace from both ends. -/
def trimSpace (s : List Char) : List Char :=
  ((s.dropWhile isSpaceChar).reverse.dropWhile isSpaceChar).reverse

/-- Model of `strings.Split` on a single separator character. -/
def splitOnChar (sep : Char) : List Char → List (List Char)
  | [] => [[]]
  | c :: rest =>
    if c = sep then [] :: splitOnChar sep rest
    else
      match splitOnChar sep rest with
      | [] => [[c]]
      | l :: ls => (c :: l) :: ls

/-- Decimal digit accumulation (`big-endian` fold). -/
def digitsToNat (cs : List Char) : Nat :=
  cs.foldl (fun a c => a * 10 + (c.toNat - 48)) 0

/-- Model of `strconv.ParseFloat` restricted to plain decimal notation
(optional sign, digits, at most one decimal point, at least one digit),
the only forms the odometer file and NMEA fields use; every other input
fails, as `ParseFloat` does on the corrupt inputs at stake. -/
def parseFloatChars (cs : List Char) : Option ℚ :=
  let neg := cs.take 1 = ['-']
  let body := if cs.take 1 = ['-'] ∨ cs.take 1 = ['+'] then cs.drop 1 else cs
  let ip := body.takeWhile (fun c => c ≠ '.')
  let rest := body.dropWhile (fun c => c ≠ '.')
  if rest = [] then
    if ip ≠ [] ∧ ip.all Char.isDigit then
      some (if neg then -(digitsToNat ip : ℚ) else (digitsToNat ip : ℚ))
    else none
  else
    let fp := rest.drop 1
    if (ip ≠ [] ∨ fp ≠ []) ∧ ip.all Char.isDigit ∧ fp.all Char.isDigit then
      let v : ℚ := (digitsToNat ip : ℚ) + (digitsToNat fp : ℚ) / 10 ^ fp.length
      some (if neg then -v else v)
    else none

/-- The character for a single decimal digit. -/
def digitChar (d : Nat) : Char := Char.ofNat (48 + d)

/-- Decimal rendering of a natural number, most significant digit first. -/
def natToChars (n : Nat) : List Char :=
  if n = 0 then ['0'] else (Nat.digits 10 n).reverse.map digitChar

/-- The six fractional digits of a micro-unit count below `10^6`. -/
def frac6Chars (m : Nat) : List Char :=
  [digitChar (m / 100000 % 10), digitChar (m / 10000 % 10),
   digitChar (m / 1000 % 10), digitChar (m / 100 % 10),
   digitChar (m / 10 % 10), digitChar (m % 10)]

/-- Rendering of a non-negative value with exactly six fractional digits;
the rounding to the nearest micro-unit models `fmt.Sprintf("%.6f", _)`. -/
def fmt6abs (a : ℚ) : List Char :=
  let n := (⌊a * 1000000 + 1 / 2⌋).toNat
  natToChars (n / 1000000) ++ '.' :: frac6Chars (n % 1000000)

/-- Model of `fmt.Sprintf("%.6f", q)` on a rational: sign plus six-fractional-digit
decimal text. -/
def fmt6 (q : ℚ) : List Char :=
  if q < 0 then '-' :: fmt6abs (-q) else fmt6abs q

/-- Model of `saveOdometer` from the server package: the file content
`<total_km>\n<trip_km>\n`, each line in `%.6f` format. -/
def saveOdometer (total trip : ℚ) : List Char :=
  fmt6 total ++ '\n' :: (fmt6 trip ++ ['\n'])

/-- Model of `loadOdometer` from the server package over an optional file content
(`none` models a missing file): trim the content, split on newlines, and
parse each of the first two lines independently; a line that is missing or
fails to parse leaves its counter at the startup value zero. -/
def loadOdometer (file : Option (List Char)) : ℚ × ℚ :=
  match file with
  | none => (0, 0)
  | some content =>
    let parts := splitOnChar '\n' (trimSpace content)
    let total :=
      match parts.get? 0 with
      | some l => (parseFloatChars l).getD 0
      | none => 0
    let trip :=
      match parts.get? 1 with
      | some l => (parseFloatChars l).getD 0
      | none => 0
    (total, trip)

/-- Model of `splitNMEA` from the GPS package: cut at the first `'*'`, strip a
leading `'$'`, split on commas. -/
def splitNMEA (line : List Char) : List (List Char) :=
  let noCk := line.takeWhile (fun c => c ≠ '*')
  let body :=
    match noCk with
    | '$' :: rest => rest
    | other => other
  splitOnChar ',' body

/-- Model of `parseNMEACoord` from the GPS package: `ddmm.mmmm` plus hemisphere to
decimal degrees; empty or unparsable input yields zero. -/
def parseNMEACoord (raw dir : List Char) : ℚ :=
  if raw = [] ∨ dir = [] then 0
  else
    match parseFloatChars raw with
    | none => 0
    | some val =>
      let deg : ℚ := (⌊val / 100⌋ : ℤ)
      let minPart := val - deg * 100
      let result := deg + minPart / 60
      if dir = ['S'] ∨ dir = ['W'] then -result else result

/-- Model of `parseRMC` from the GPS package, acting on the mutable fix `n.last`:
fewer than ten fields returns the fix unchanged; otherwise the timestamp
and validity are updated, and position, speed, and heading only when the
status field is `"A"`. -/
def parseRMC (fix : GpsData) (line : List Char) : GpsData :=
  let parts := splitNMEA line
  if parts.length < 10 then fix
  else
    let fix1 :=
      { fix with
        Timestamp := parts.getD 1 []
        Valid := parts.getD 2 [] = ['A'] }
    if fix1.Valid then
      let fix2 :=
        { fix1 with
          Latitude := parseNMEACoord (parts.getD 3 []) (parts.getD 4 [])
          Longitude := parseNMEACoord (parts.getD 5 []) (parts.getD 6 []) }
      let fix3 :=
        match parseFloatChars (parts.getD 7 []) with
        | some spd => { fix2 with Speed := spd * 1.852 }
        | none => fix2
      match parseFloatChars (parts.getD 8 []) with
      | some hdg => { fix3 with Heading := hdg }
      | none => fix3
    else fix1

section DerivedProjections

variable (stoich : ℚ) (f : DataFrame)

lemma computeDerived_RPM : (computeDerived stoich f).RPM = f.RPM := by
  simp only [computeDerived]; split_ifs <;> rfl

lemma computeDerived_VSS : (computeDerived stoich f).VSS = f.VSS := by
  simp only [computeDerived]; split_ifs <;> rfl

lemma computeDerived_Errors : (computeDerived stoich f).Errors = f.Errors := by
  simp only [computeDerived]; split_ifs <;> rfl

lemma computeDerived_PulseWidth1 : (computeDerived stoich f).PulseWidth1 = f.PulseWidth1 := by
  simp only [computeDerived]; split_ifs <;> rfl

lemma computeDerived_Dwell : (computeDerived stoich f).Dwell = f.Dwell := by
  simp only [computeDerived]; split_ifs <;> rfl

lemma computeDerived_TPS : (computeDerived stoich f).TPS = f.TPS := by
  simp only [computeDerived]; split_ifs <;> rfl

lemma computeDerived_Sync : (computeDerived stoich f).Sync = f.Sync := by
  simp only [computeDerived]; split_ifs <;> rfl

lemma computeDerived_Running : (computeDerived stoich f).Running = f.Running := by
  simp only [computeDerived]; split_ifs <;> rfl

lemma computeDerived_IAT : (computeDerived stoich f).IAT = f.IAT := by
  simp only [computeDerived]; split_ifs <;> rfl

lemma computeDerived_Coolant : (computeDerived stoich f).Coolant = f.Coolant := by
  simp only [computeDerived]; split_ifs <;> rfl

end DerivedProjections

/-- C1 counterexample: parse does fail on short payloads in the framed
mode (`parsePrimaryData` would panic, modelled as `none`), and even the
plain parser does not leave every out-of-range field at its zero value:
the IAT channel of an empty payload reads `0 - 40 = -40`. -/
theorem speeduino_parse_short_counterexample :
    parsePrimaryData (147 / 10) [] = none ∧
    (parseSecondaryData (147 / 10) []).IAT ≠ 0 := by
  refine ⟨rfl, ?_⟩
  have hbase : (parseSecondaryData (147 / 10) []).IAT = (secU8 [] 6 : ℚ) - 40 := by
    rw [parseSecondaryData]
    simp only [List.length_nil]
    rw [if_neg (by omega)]
    rw [computeDerived_IAT]
    rfl
  rw [hbase]
  norm_num [secU8]

/-- C1 amended: the plain-mode parser is total and reads out-of-range
offsets as zero raw bytes (fields that are scaled copies of the raw byte
therefore stay at zero, while offset-shifted channels such as IAT read the
transform of zero, `-40`); the framed-mode parser fails exactly on
payloads shorter than the 130-byte OCH block. -/
theorem speeduino_parse_short_zeroed (stoich : ℚ) (d : List Nat) :
    (parsePrimaryData stoich d = none ↔ d.length < primaryOCHBlockSize) ∧
    (d.length ≤ 14 → (parseSecondaryData stoich d).RPM = 0) ∧
    (d.length ≤ 100 → (parseSecondaryData stoich d).VSS = 0) ∧
    (d.length ≤ 74 → (parseSecondaryData stoich d).Errors = 0) ∧
    (d.length ≤ 20 → (parseSecondaryData stoich d).PulseWidth1 = 0) ∧
    (d.length ≤ 3 → (parseSecondaryData stoich d).Dwell = 0) ∧
    (d.length ≤ 24 → (parseSecondaryData stoich d).TPS = 0) ∧
    (d.length ≤ 31 → (parseSecondaryData stoich d).Sync = false) ∧
    (d.length ≤ 2 → (parseSecondaryData stoich d).Running = false) ∧
    (d.length ≤ 6 → (parseSecondaryData stoich d).IAT = 0 - 40) := by
  refine ⟨?_, ?_, ?_, ?_, ?_, ?_, ?_, ?_, ?_, ?_⟩
  · rw [parsePrimaryData]
    split_ifs with h
    · simp [h]
    · simp [h]
  · intro h
    rw [parseSecondaryData]
    rw [if_neg (by omega)]
    rw [computeDerived_RPM]
    show secU16le d 14 = 0
    rw [secU16le, if_neg (by omega)]
  · intro h
    rw [parseSecondaryData]
    by_cases h75 : 75 < d.length
    · rw [if_pos h75, computeDerived_VSS]
      show secU16le d 100 = 0
      rw [secU16le, if_neg (by omega)]
    · rw [if_neg h75, computeDerived_VSS]
      rfl
  · intro h
    rw [parseSecondaryData]
    rw [if_neg (by omega)]
    rw [computeDerived_Errors]
    show secU8 d 74 = 0
    rw [secU8, if_neg (by omega)]
  · intro h
    rw [parseSecondaryData]
    rw [if_neg (by omega)]
    rw [computeDerived_PulseWidth1]
    show (secU16le d 20 : ℚ) * 0.1 = 0
    rw [secU16le, if_neg (by omega)]
    norm_num
  · intro h
    rw [parseSecondaryData]
    rw [if_neg (by omega)]
    rw [computeDerived_Dwell]
    show (secU8 d 3 : ℚ) * 0.1 = 0
    rw [secU8, if_neg (by omega)]
    norm_num
  · intro h
    rw [parseSecondaryData]
    rw [if_neg (by omega)]
    rw [computeDerived_TPS]
    show (secU8 d 24 : ℚ) = 0
    rw [secU8, if_neg (by omega)]
    norm_num
  · intro h
    rw [parseSecondaryData]
    rw [if_neg (by omega)]
    rw [computeDerived_Sync]
    show (secU8 d 31).testBit 7 = false
    rw [secU8, if_neg (by omega)]
    decide
  · intro h
    rw [parseSecondaryData]
    rw [if_neg (by omega)]
    rw [computeDerived_Running]
    show (secU8 d 2).testBit 0 = false
    rw [secU8, if_neg (by omega)]
    decide
  · intro h
    rw [parseSecondaryData]
    rw [if_neg (by omega)]
    rw [computeDerived_IAT]
    show (secU8 d 6 : ℚ) - 40 = 0 - 40
    rw [secU8, if_neg (by omega)]
    norm_num

/-- C1 witness: the amended theorem applied to a concrete two-byte
payload. -/
theorem speeduino_parse_short_zeroed_witness :
    ([1, 2] : List Nat).length ≤ 14 ∧ (parseSecondaryData (147 / 10) [1, 2]).RPM = 0 :=
  ⟨by decide, (speeduino_parse_short_zeroed (147 / 10) [1, 2]).2.1 (by decide)⟩

/-- C2: the framed-mode payload-size dispatch — exactly 130 bytes parses
whole, exactly 131 drops the status byte, more than 130 keeps the trailing
130 bytes, anything shorter yields the payload-size error and no frame. -/
theorem requestPrimary_payload_dispatch (p : List Nat) :
    (p.length = 130 → selectOCHData p = some p) ∧
    (p.length = 131 → selectOCHData p = some (p.drop 1)) ∧
    (130 < p.length → selectOCHData p = some (p.drop (p.length - 130)) ∧
      (p.drop (p.length - 130)).length = 130) ∧
    (p.length < 130 → selectOCHData p = none) ∧
    (∀ (s : SpeeduinoState) (input : List Nat),
      readMsEnvelopeResponse input = .ok p → p.length < 130 →
      (requestPrimary s input).1 = .error (.payloadSizeUnexpected p.length)) := by
  have hsel130 : p.length = 130 → selectOCHData p = some p := by
    intro h
    rw [selectOCHData, if_pos (by rw [primaryOCHBlockSize]; omega)]
  have hsel131 : p.length = 131 → selectOCHData p = some (p.drop 1) := by
    intro h
    rw [selectOCHData, if_neg (by rw [primaryOCHBlockSize]; omega),
      if_pos (by rw [primaryOCHBlockSize]; omega)]
  have hselgt : 130 < p.length → selectOCHData p = some (p.drop (p.length - 130)) := by
    intro h
    by_cases h131 : p.length = 131
    · rw [hsel131 h131, h131]
    · rw [selectOCHData, if_neg (by rw [primaryOCHBlockSize]; omega),
        if_neg (by rw [primaryOCHBlockSize]; omega),
        if_pos (by rw [primaryOCHBlockSize]; omega), primaryOCHBlockSize]
  have hsellt : p.length < 130 → selectOCHData p = none := by
    intro h
    rw [selectOCHData, if_neg (by rw [primaryOCHBlockSize]; omega),
      if_neg (by rw [primaryOCHBlockSize]; omega),
      if_neg (by rw [primaryOCHBlockSize]; omega)]
  refine ⟨hsel130, hsel131, fun h => ⟨hselgt h, ?_⟩, hsellt, ?_⟩
  · rw [List.length_drop]; omega
  · intro s input hread hlen
    simp only [requestPrimary, requestPrimaryResult, hread, hsellt hlen]

/-- C2 witness: a 131-byte payload is accepted with its first byte
discarded. -/
theorem requestPrimary_payload_dispatch_witness :
    (List.replicate 131 (0 : Nat)).length = 131 ∧
    selectOCHData (List.replicate 131 (0 : Nat)) =
      some ((List.replicate 131 (0 : Nat)).drop 1) :=
  ⟨by simp, (requestPrimary_payload_dispatch (List.replicate 131 0)).2.1 (by simp)⟩

lemma crc32Round_lt (c : Nat) (h : c < 2 ^ 32) : crc32Round c < 2 ^ 32 := by
  rw [crc32Round]
  split_ifs
  · exact Nat.xor_lt_two_pow (by omega) (by norm_num)
  · omega

lemma crc32Round_iter_lt (n c : Nat) (h : c < 2 ^ 32) : crc32Round^[n] c < 2 ^ 32 := by
  induction n generalizing c with
  | zero => simpa using h
  | succ k ih =>
    rw [Function.iterate_succ_apply]
    exact ih _ (crc32Round_lt c h)

lemma crc32Byte_lt (c b : Nat) (h : c < 2 ^ 32) : crc32Byte c b < 2 ^ 32 := by
  rw [crc32Byte]
  refine crc32Round_iter_lt 8 _ (Nat.xor_lt_two_pow h ?_)
  exact lt_of_lt_of_le (Nat.mod_lt _ (by norm_num)) (by norm_num)

lemma crc32_lt (data : List Nat) : crc32 data < 2 ^ 32 := by
  rw [crc32]
  have hfold : ∀ (l : List Nat) (acc : Nat), acc < 2 ^ 32 →
      l.foldl crc32Byte acc < 2 ^ 32 := by
    intro l
    induction l with
    | nil => intro acc h; simpa using h
    | cons x xs ih =>
      intro acc h
      rw [List.foldl_cons]
      exact ih _ (crc32Byte_lt _ _ h)
  exact Nat.xor_lt_two_pow (hfold data _ (by norm_num)) (by norm_num)

lemma beUint32_beBytes4 (x : Nat) (h : x < 2 ^ 32) : beUint32 (beBytes4 x) = x := by
  rw [beBytes4, beUint32]
  show x / 2 ^ 24 % 256 * 2 ^ 24 + x / 2 ^ 16 % 256 * 2 ^ 16 + x / 2 ^ 8 % 256 * 2 ^ 8
      + x % 256 = x
  have h24 : (2 : Nat) ^ 24 = 16777216 := by norm_num
  have h16 : (2 : Nat) ^ 16 = 65536 := by norm_num
  have h8 : (2 : Nat) ^ 8 = 256 := by norm_num
  have h32 : (2 : Nat) ^ 32 = 4294967296 := by norm_num
  rw [h24, h16, h8, h32] at *
  omega

/-- C3: wrapping a non-empty payload of at most 1024 bytes in the
msEnvelope frame and decoding that frame from a synthetic byte source
returns exactly the original payload. -/
theorem wrap_read_roundtrip (p : List Nat) (h1 : 1 ≤ p.length)
    (h2 : p.length ≤ 1024) :
    readMsEnvelopeResponse (wrapMsEnvelope p) = .ok p := by
  have hmod : p.length % 65536 = p.length := Nat.mod_eq_of_lt (by omega)
  have hcrc : crc32 p < 2 ^ 32 := crc32_lt p
  have hb4 : (beBytes4 (crc32 p)).length = 4 := rfl
  rw [wrapMsEnvelope]
  simp only [hmod]
  rw [readMsEnvelopeResponse]
  rw [if_neg (by simp)]
  have hg0 : (p.length / 256 % 256 :: p.length % 256 ::
      (p ++ beBytes4 (crc32 p))).getD 0 0 = p.length / 256 % 256 := rfl
  have hg1 : (p.length / 256 % 256 :: p.length % 256 ::
      (p ++ beBytes4 (crc32 p))).getD 1 0 = p.length % 256 := rfl
  simp only [hg0, hg1]
  have hsz : p.length / 256 % 256 * 256 + p.length % 256 = p.length := by omega
  simp only [hsz]
  rw [if_neg (by omega)]
  have hdrop : List.drop 2 (p.length / 256 % 256 :: p.length % 256 ::
      (p ++ beBytes4 (crc32 p))) = p ++ beBytes4 (crc32 p) := rfl
  rw [hdrop]
  have hrl : (p ++ beBytes4 (crc32 p)).length = p.length + 4 := by
    rw [List.length_append, hb4]
  rw [hrl]
  rw [if_neg (by omega)]
  have htake : (p ++ beBytes4 (crc32 p)).take p.length = p := List.take_left' rfl
  have hdropP : (p ++ beBytes4 (crc32 p)).drop p.length = beBytes4 (crc32 p) :=
    List.drop_left' rfl
  rw [htake, hdropP]
  have htake4 : (beBytes4 (crc32 p)).take 4 = beBytes4 (crc32 p) := rfl
  rw [htake4, beUint32_beBytes4 _ hcrc]
  rw [if_neg (by simp)]

/-- C3 counterexample: the empty payload, although within "up to 1024
bytes", does not round-trip — decoding its frame fails the size check. -/
theorem wrap_read_empty_counterexample :
    readMsEnvelopeResponse (wrapMsEnvelope []) = .error (.invalidPayloadSize 0) ∧
    readMsEnvelopeResponse (wrapMsEnvelope []) ≠ .ok [] := by
  refine ⟨rfl, ?_⟩
  intro h
  rw [show readMsEnvelopeResponse (wrapMsEnvelope ([] : List Nat)) =
    .error (.invalidPayloadSize 0) from rfl] at h
  exact Except.noConfusion h

/-- C3 witness: the round-trip theorem applied to a concrete one-byte
payload. -/
theorem wrap_read_roundtrip_witness :
    1 ≤ ([7] : List Nat).length ∧ ([7] : List Nat).length ≤ 1024 ∧
    readMsEnvelopeResponse (wrapMsEnvelope [7]) = .ok [7] :=
  ⟨by decide, by decide, wrap_read_roundtrip [7] (by decide) (by decide)⟩

/-- C4 counterexample: a header mismatch on a poll propagates an error but
leaves the driver's connected flag set — nothing in the poll paths ever
clears it. -/
theorem requestData_error_keeps_connected_counterexample :
    (RequestData ⟨true, .secondaryN, 0, 15⟩ [0x41, 0x32, 10]).1 =
      .error (.echoMismatch 0x41 0x6E) ∧
    ((RequestData ⟨true, .secondaryN, 0, 15⟩ [0x41, 0x32, 10]).2).connected = true :=
  ⟨rfl, rfl⟩

lemma requestSecondaryN_state (s : SpeeduinoState) (input : List Nat) :
    (requestSecondaryN s input).2 = s := by
  simp only [requestSecondaryN]; split_ifs <;> rfl

lemma requestSecondaryA_state (s : SpeeduinoState) (input : List Nat) :
    (requestSecondaryA s input).2 = s := by
  simp only [requestSecondaryA]; split_ifs <;> rfl

lemma requestSecondary_state (s : SpeeduinoState) (input : List Nat) :
    (requestSecondary s input).2 = s := by
  simp only [requestSecondary]; split_ifs <;> rfl

lemma requestPrimary_state (s : SpeeduinoState) (input : List Nat) :
    (requestPrimary s input).2 = s := rfl

/-- C4 amended: every poll-cycle error propagates to the caller, but no
poll path modifies the driver state — in particular the connected flag is
left unchanged; only `Close` clears it. -/
theorem requestData_errors_propagate (s : SpeeduinoState) (input : List Nat) :
    (RequestData s input).2 = s ∧
    (requestSecondaryN s input).2 = s ∧
    (requestSecondaryA s input).2 = s ∧
    (requestSecondary s input).2 = s ∧
    (requestPrimary s input).2 = s ∧
    (closeDriver s).connected = false ∧
    (s.connected = true → s.proto = .secondaryN → input.getD 0 0 ≠ 0x6E →
      ∃ e, (RequestData s input).1 = .error e) ∧
    (s.connected = true → s.proto = .primary →
      ∀ e, readMsEnvelopeResponse input = .error e →
        (RequestData s input).1 = .error e) := by
  have hmain : (RequestData s input).2 = s := by
    rw [RequestData]
    split_ifs with hc
    all_goals
      first
      | rfl
      | (cases s.proto with
         | secondaryN => exact requestSecondaryN_state s input
         | secondaryA => exact requestSecondaryA_state s input
         | secondaryR => exact requestSecondary_state s input
         | primary => exact requestPrimary_state s input)
  refine ⟨hmain, requestSecondaryN_state s input, requestSecondaryA_state s input,
    requestSecondary_state s input, requestPrimary_state s input, rfl, ?_, ?_⟩
  · intro hc hp hecho
    simp only [RequestData, hc, hp, not_true_eq_false, if_false]
    rw [requestSecondaryN]
    split_ifs
    · exact ⟨_, rfl⟩
    · exact ⟨_, rfl⟩
  · intro hc hp e he
    simp only [RequestData, hc, hp, not_true_eq_false, if_false]
    simp only [requestPrimary, requestPrimaryResult, he]

/-- C4 witness: the amended theorem applied to a connected plain-'n'
driver fed a bad echo byte. -/
theorem requestData_errors_propagate_witness :
    (⟨true, .secondaryN, 0, 15⟩ : SpeeduinoState).connected = true ∧
    ∃ e, (RequestData ⟨true, .secondaryN, 0, 15⟩ [0x41, 0x32, 10]).1 = .error e :=
  ⟨rfl, (requestData_errors_propagate ⟨true, .secondaryN, 0, 15⟩
    [0x41, 0x32, 10]).2.2.2.2.2.2.1 rfl rfl (by decide)⟩

/-- C5 counterexample: the speed fuser tags an ECU-sourced reading with
the string `"vss"`, not `ecu_vss`. -/
theorem calcSpeed_source_tag_counterexample :
    (calcSpeed (some { VSS := 55 }) none).Source = "vss" ∧
    (calcSpeed (some { VSS := 55 }) none).Source ≠ "ecu_vss" :=
  ⟨rfl, by decide⟩

/-- C5 amended: the fuser is a pure function preferring a present ECU
frame with positive VSS (source tag `"vss"`), then a present valid GPS fix
(source tag `"gps"`), else zero with tag `"none"`. -/
theorem calcSpeed_priority (e : Option DataFrame) (g : Option GpsData) :
    (∀ f, e = some f → 0 < f.VSS →
      calcSpeed e g = { Value := (f.VSS : ℚ), Source := "vss" }) ∧
    (∀ gx, g = some gx → (∀ f, e = some f → f.VSS = 0) → gx.Valid = true →
      calcSpeed e g = { Value := gx.Speed, Source := "gps" }) ∧
    ((∀ f, e = some f → f.VSS = 0) → (∀ gx, g = some gx → gx.Valid = false) →
      calcSpeed e g = { Value := 0, Source := "none" }) := by
  refine ⟨?_, ?_, ?_⟩
  · rintro f rfl hv
    simp only [calcSpeed]
    rw [if_pos hv]
  · rintro gx rfl hz hvalid
    cases e with
    | none => simp [calcSpeed, hvalid]
    | some f =>
      have h0 : f.VSS = 0 := hz f rfl
      simp [calcSpeed, h0, hvalid]
  · intro hz hg
    cases e with
    | none =>
      cases g with
      | none => simp [calcSpeed]
      | some gx => simp [calcSpeed, hg gx rfl]
    | some f =>
      have h0 : f.VSS = 0 := hz f rfl
      cases g with
      | none => simp [calcSpeed, h0]
      | some gx => simp [calcSpeed, h0, hg gx rfl]

/-- C5 witness: the amended theorem applied to an ECU frame with
VSS = 55. -/
theorem calcSpeed_priority_witness :
    0 < ({ VSS := 55 } : DataFrame).VSS ∧
    calcSpeed (some { VSS := 55 }) none =
      { Value := (({ VSS := 55 } : DataFrame).VSS : ℚ), Source := "vss" } :=
  ⟨by decide, (calcSpeed_priority (some { VSS := 55 }) none).1 _ rfl (by decide)⟩

/-- C6: the odometer update policy over the Haversine distance `d` to the
last position — a gated fix (invalid or at most 1 km/h) changes nothing;
the first valid moving fix only seeds the position; afterwards a jump
above 0.5 km reseeds without accumulating, a move in (0.002, 0.5] km
accumulates onto both counters and updates the position, and a sub-2-m
move changes nothing. -/
theorem updateOdometer_policy (hav : ℚ → ℚ → ℚ → ℚ → ℚ) (s : OdoState)
    (d : GpsData) :
    (d.Valid = false ∨ d.Speed ≤ 1 → gpsOdoTick hav s d = s) ∧
    (d.Valid = true → 1 < d.Speed →
      (s.lastValid = false →
        gpsOdoTick hav s d =
          { s with lastLat := d.Latitude, lastLon := d.Longitude, lastValid := true }) ∧
      (s.lastValid = true →
        (0.5 < hav s.lastLat s.lastLon d.Latitude d.Longitude →
          gpsOdoTick hav s d = { s with lastLat := d.Latitude, lastLon := d.Longitude }) ∧
        (0.002 < hav s.lastLat s.lastLon d.Latitude d.Longitude →
         hav s.lastLat s.lastLon d.Latitude d.Longitude ≤ 0.5 →
          gpsOdoTick hav s d =
            { s with
              total := s.total + hav s.lastLat s.lastLon d.Latitude d.Longitude
              trip := s.trip + hav s.lastLat s.lastLon d.Latitude d.Longitude
              lastLat := d.Latitude
              lastLon := d.Longitude }) ∧
        (hav s.lastLat s.lastLon d.Latitude d.Longitude ≤ 0.002 →
          gpsOdoTick hav s d = s))) := by
  refine ⟨?_, ?_⟩
  · intro h
    rw [gpsOdoTick, if_neg]
    rcases h with hv | hs
    · simp [hv]
    · simp [not_lt.mpr hs]
  · intro hv hs
    have hcond : (d.Valid && decide (1 < d.Speed)) = true := by simp [hv, hs]
    refine ⟨?_, ?_⟩
    · intro hl
      rw [gpsOdoTick, if_pos hcond, updateOdometer, if_pos (by simp [hl])]
    · intro hl
      refine ⟨?_, ?_, ?_⟩
      · intro hjump
        rw [gpsOdoTick, if_pos hcond, updateOdometer, if_neg (by simp [hl]),
          if_pos hjump]
      · intro hmove hle
        rw [gpsOdoTick, if_pos hcond, updateOdometer, if_neg (by simp [hl]),
          if_neg (not_lt.mpr hle), if_pos hmove]
      · intro hsmall
        rw [gpsOdoTick, if_pos hcond, updateOdometer, if_neg (by simp [hl]),
          if_neg (by exact not_lt.mpr (le_trans hsmall (by norm_num))),
          if_neg (not_lt.mpr hsmall)]

/-- C6 witness: the accumulate branch applied with a distance of
1/100 km. -/
theorem updateOdometer_policy_witness :
    ((⟨7, 3, 1, 2, true⟩ : OdoState).lastValid = true) ∧
    (0.002 < (1 : ℚ) / 100) ∧ ((1 : ℚ) / 100 ≤ 0.5) ∧
    gpsOdoTick (fun _ _ _ _ => (1 : ℚ) / 100) ⟨7, 3, 1, 2, true⟩
        { Valid := true, Latitude := 3, Longitude := 4, Speed := 30 } =
      { (⟨7, 3, 1, 2, true⟩ : OdoState) with
        total := (7 : ℚ) + (1 : ℚ) / 100
        trip := (3 : ℚ) + (1 : ℚ) / 100
        lastLat := (3 : ℚ)
        lastLon := (4 : ℚ) } :=
  ⟨rfl, by norm_num, by norm_num,
    (((updateOdometer_policy (fun _ _ _ _ => (1 : ℚ) / 100) ⟨7, 3, 1, 2, true⟩
      { Valid := true, Latitude := 3, Longitude := 4, Speed := 30 }).2 rfl
        (by norm_num)).2 rfl).2.1 (by norm_num) (by norm_num)⟩

lemma gpsOdoTick_total_mono (hav : ℚ → ℚ → ℚ → ℚ → ℚ) (s : OdoState)
    (d : GpsData) : s.total ≤ (gpsOdoTick hav s d).total := by
  rw [gpsOdoTick]
  split_ifs with h
  · simp only [updateOdometer]
    split_ifs with h1 h2 h3
    · exact le_refl _
    · show s.total ≤ s.total + hav s.lastLat s.lastLon d.Latitude d.Longitude
      linarith
    · exact le_refl _
    · exact le_refl _
  · exact le_refl _

lemma gpsOdoTick_trip_mono (hav : ℚ → ℚ → ℚ → ℚ → ℚ) (s : OdoState)
    (d : GpsData) : s.trip ≤ (gpsOdoTick hav s d).trip := by
  rw [gpsOdoTick]
  split_ifs with h
  · simp only [updateOdometer]
    split_ifs with h1 h2 h3
    · exact le_refl _
    · show s.trip ≤ s.trip + hav s.lastLat s.lastLon d.Latitude d.Longitude
      linarith
    · exact le_refl _
    · exact le_refl _
  · exact le_refl _

lemma applyOdoOp_total_mono (hav : ℚ → ℚ → ℚ → ℚ → ℚ) (s : OdoState) :
    ∀ op, s.total ≤ (applyOdoOp hav s op).total
  | .tick d => gpsOdoTick_total_mono hav s d
  | .reset => le_refl _

lemma runOdoOps_total_mono (hav : ℚ → ℚ → ℚ → ℚ → ℚ) (ops : List OdoOp) :
    ∀ s : OdoState, s.total ≤ (runOdoOps hav s ops).total := by
  induction ops with
  | nil => intro s; exact le_refl _
  | cons op rest ih =>
    intro s
    rw [runOdoOps, List.foldl_cons]
    exact le_trans (applyOdoOp_total_mono hav s op) (ih _)

lemma runOdoOps_trip_mono (hav : ℚ → ℚ → ℚ → ℚ → ℚ) (ops : List OdoOp) :
    ∀ s : OdoState, (∀ op ∈ ops, op ≠ OdoOp.reset) →
      s.trip ≤ (runOdoOps hav s ops).trip := by
  induction ops with
  | nil => intro s _; exact le_refl _
  | cons op rest ih =>
    intro s hnr
    rw [runOdoOps, List.foldl_cons]
    have hop : op ≠ OdoOp.reset := hnr op (List.mem_cons_self op rest)
    have hstep : s.trip ≤ (applyOdoOp hav s op).trip := by
      cases op with
      | tick d => exact gpsOdoTick_trip_mono hav s d
      | reset => exact absurd rfl hop
    exact le_trans hstep (ih _ (fun o ho => hnr o (List.mem_cons_of_mem op ho)))

/-- C7: over any history of GPS ticks and trip resets, the total is
monotonically non-decreasing; the trip is non-decreasing on reset-free
histories; `reset_trip` zeroes exactly the trip, keeps the total, and is
idempotent. -/
theorem odometer_monotone_reset (hav : ℚ → ℚ → ℚ → ℚ → ℚ) (s : OdoState)
    (d : GpsData) (ops : List OdoOp) :
    s.total ≤ (gpsOdoTick hav s d).total ∧
    s.trip ≤ (gpsOdoTick hav s d).trip ∧
    (resetTrip s).trip = 0 ∧
    (resetTrip s).total = s.total ∧
    resetTrip (resetTrip s) = resetTrip s ∧
    s.total ≤ (runOdoOps hav s ops).total ∧
    ((∀ op ∈ ops, op ≠ OdoOp.reset) → s.trip ≤ (runOdoOps hav s ops).trip) :=
  ⟨gpsOdoTick_total_mono hav s d, gpsOdoTick_trip_mono hav s d, rfl, rfl, rfl,
    runOdoOps_total_mono hav ops s, runOdoOps_trip_mono hav ops s⟩

/-- C7 witness: the reset-free trip monotonicity applied to a singleton
history. -/
theorem odometer_monotone_reset_witness :
    (∀ op ∈ [OdoOp.tick { Valid := true, Speed := 30 }], op ≠ OdoOp.reset) ∧
    (⟨7, 3, 1, 2, true⟩ : OdoState).trip ≤
      (runOdoOps (fun _ _ _ _ => 0) ⟨7, 3, 1, 2, true⟩
        [OdoOp.tick { Valid := true, Speed := 30 }]).trip := by
  have hnr : ∀ op ∈ [OdoOp.tick { Valid := true, Speed := 30 }],
      op ≠ OdoOp.reset := by
    intro op hop
    rw [List.mem_singleton] at hop
    subst hop
    exact fun h => OdoOp.noConfusion h
  exact ⟨hnr, (odometer_monotone_reset (fun _ _ _ _ => 0) ⟨7, 3, 1, 2, true⟩
    { Valid := true, Speed := 30 } [OdoOp.tick { Valid := true, Speed := 30 }]).2.2.2.2.2.2
    hnr⟩

lemma splitOnChar_of_not_mem (sep : Char) (l : List Char) (h : sep ∉ l) :
    splitOnChar sep l = [l] := by
  induction l with
  | nil => rfl
  | cons c rest ih =>
    have hne : ¬c = sep := fun hc => h (by rw [hc]; exact List.mem_cons_self sep rest)
    have hrest : sep ∉ rest := fun hm => h (List.mem_cons_of_mem c hm)
    simp only [splitOnChar]
    rw [if_neg hne]
    rw [ih hrest]

lemma splitOnChar_append (sep : Char) (l1 l2 : List Char) (h : sep ∉ l1) :
    splitOnChar sep (l1 ++ sep :: l2) = l1 :: splitOnChar sep l2 := by
  induction l1 with
  | nil => simp [splitOnChar]
  | cons c rest ih =>
    have hne : ¬c = sep := fun hc => h (by rw [hc]; exact List.mem_cons_self sep rest)
    have hrest : sep ∉ rest := fun hm => h (List.mem_cons_of_mem c hm)
    simp only [List.cons_append, splitOnChar, List.append_eq]
    rw [if_neg hne]
    rw [ih hrest]

lemma digitChar_isDigit (d : Nat) (h : d < 10) : (digitChar d).isDigit = true := by
  interval_cases d <;> decide

lemma natToChars_digits (n : Nat) : ∀ c ∈ natToChars n, c.isDigit = true := by
  intro c hc
  rw [natToChars] at hc
  split_ifs at hc with h
  · rw [List.mem_singleton] at hc
    subst hc
    decide
  · rw [List.mem_map] at hc
    obtain ⟨d, hd, rfl⟩ := hc
    exact digitChar_isDigit d
      (Nat.digits_lt_base (by norm_num) (List.mem_reverse.mp hd))

lemma frac6Chars_digits (m : Nat) : ∀ c ∈ frac6Chars m, c.isDigit = true := by
  intro c hc
  simp only [frac6Chars, List.mem_cons, List.not_mem_nil, or_false] at hc
  rcases hc with rfl | rfl | rfl | rfl | rfl | rfl <;>
    exact digitChar_isDigit _ (Nat.mod_lt _ (by norm_num))

lemma fmt6_nonneg (q : ℚ) (h : 0 ≤ q) : fmt6 q = fmt6abs q := by
  rw [fmt6, if_neg (not_lt.mpr h)]

lemma fmt6_shape (q : ℚ) (h : 0 ≤ q) :
    ∃ ip fr, fmt6 q = ip ++ '.' :: fr ∧ fr.length = 6 ∧
      (∀ c ∈ ip, c.isDigit = true) ∧ (∀ c ∈ fr, c.isDigit = true) := by
  refine ⟨natToChars ((⌊q * 1000000 + 1 / 2⌋).toNat / 1000000),
    frac6Chars ((⌊q * 1000000 + 1 / 2⌋).toNat % 1000000), ?_, rfl,
    natToChars_digits _, frac6Chars_digits _⟩
  rw [fmt6_nonneg q h]
  rfl

lemma isDigit_ne_newline (c : Char) (h : c.isDigit = true) : c ≠ '\n' := by
  intro hc
  subst hc
  exact absurd h (by decide)

lemma fmt6_no_newline (q : ℚ) (h : 0 ≤ q) : '\n' ∉ fmt6 q := by
  obtain ⟨ip, fr, heq, _, hip, hfr⟩ := fmt6_shape q h
  rw [heq]
  intro hmem
  rcases List.mem_append.mp hmem with hm | hm
  · exact isDigit_ne_newline _ (hip _ hm) rfl
  · rcases List.mem_cons.mp hm with hm2 | hm2
    · exact absurd hm2.symm (by decide)
    · exact isDigit_ne_newline _ (hfr _ hm2) rfl

/-- C8 counterexample: a file whose second line is corrupt does not seed
both counters to zero — the first line still loads (total = 5). -/
theorem loadOdometer_corrupt_counterexample :
    loadOdometer (some ("5.000000\nabc\n".toList)) = (5, 0) ∧ ((5 : ℚ) ≠ 0) := by
  constructor
  · have h1 : trimSpace ("5.000000\nabc\n".toList) = "5.000000\nabc".toList := by
      decide
    rw [loadOdometer, h1]
    have h2 : splitOnChar '\n' ("5.000000\nabc".toList) =
        ["5.000000".toList, "abc".toList] := by decide
    rw [h2]
    have h3 : parseFloatChars ("5.000000".toList) =
        some ((digitsToNat ['5'] : ℚ) +
          (digitsToNat ['0', '0', '0', '0', '0', '0'] : ℚ) / 10 ^ 6) := rfl
    have h4 : parseFloatChars ("abc".toList) = none := by decide
    have d1 : digitsToNat ['5'] = 5 := by decide
    have d2 : digitsToNat ['0', '0', '0', '0', '0', '0'] = 0 := by decide
    rw [d1, d2] at h3
    simp only [List.get?, h3, h4, Option.getD_some, Option.getD_none]
    norm_num
  · norm_num

/-- C8 amended: the saved state is exactly two newline-terminated ASCII
lines of decimal text with six fractional digits, total then trip; a
missing file seeds both counters to zero; and the two lines of a present
file are parsed independently — a line that fails to parse leaves only its
own counter at zero. -/
theorem odometer_file_format (t r : ℚ) (l1 l2 : List Char)
    (ht : 0 ≤ t) (hr : 0 ≤ r) (h1 : '\n' ∉ l1) (h2 : '\n' ∉ l2)
    (htrim : trimSpace (l1 ++ '\n' :: (l2 ++ ['\n'])) = l1 ++ '\n' :: l2) :
    saveOdometer t r = fmt6 t ++ '\n' :: (fmt6 r ++ ['\n']) ∧
    splitOnChar '\n' (saveOdometer t r) = [fmt6 t, fmt6 r, []] ∧
    (∃ ip fr6, fmt6 t = ip ++ '.' :: fr6 ∧ fr6.length = 6 ∧
      (∀ c ∈ ip, c.isDigit = true) ∧ (∀ c ∈ fr6, c.isDigit = true)) ∧
    loadOdometer none = (0, 0) ∧
    loadOdometer (some (l1 ++ '\n' :: (l2 ++ ['\n']))) =
      ((parseFloatChars l1).getD 0, (parseFloatChars l2).getD 0) := by
  refine ⟨rfl, ?_, fmt6_shape t ht, rfl, ?_⟩
  · show splitOnChar '\n' (fmt6 t ++ '\n' :: (fmt6 r ++ ['\n'])) = [fmt6 t, fmt6 r, []]
    rw [splitOnChar_append '\n' (fmt6 t) _ (fmt6_no_newline t ht)]
    rw [show (fmt6 r ++ ['\n'] : List Char) = fmt6 r ++ '\n' :: [] from rfl]
    rw [splitOnChar_append '\n' (fmt6 r) [] (fmt6_no_newline r hr)]
    rfl
  · rw [loadOdometer, htrim]
    rw [splitOnChar_append '\n' l1 l2 h1]
    rw [splitOnChar_of_not_mem '\n' l2 h2]
    rfl

/-- C8 witness: saving then loading concrete integer counters (5 km total,
2 km trip) round-trips through the two-line format, via the independence
conjunct of the amended theorem. -/
theorem odometer_file_format_witness :
    trimSpace ("5.000000".toList ++ '\n' :: ("2.000000".toList ++ ['\n'])) =
      "5.000000".toList ++ '\n' :: "2.000000".toList ∧
    loadOdometer (some ("5.000000".toList ++ '\n' :: ("2.000000".toList ++ ['\n']))) =
      ((parseFloatChars ("5.000000".toList)).getD 0,
        (parseFloatChars ("2.000000".toList)).getD 0) :=
  ⟨by decide,
    (odometer_file_format 5 2 ("5.000000".toList) ("2.000000".toList)
      (by norm_num) (by norm_num) (by decide) (by decide) (by decide)).2.2.2.2⟩

/-- C9 counterexample: the default configuration yields protocol
`"auto"`, under which a single connect attempt issues both the msEnvelope
and the plain handshake probes — the driver does auto-detect, and the
protocol is not one of exactly two construction-fixed modes. -/
theorem connect_auto_counterexample :
    newSpeeduinoProtocol "" = "auto" ∧
    tryMsEnvelope (newSpeeduinoProtocol "") = true ∧
    trySecondary (newSpeeduinoProtocol "") = true ∧
    "Q-msenvelope" ∈ connectAttempts (newSpeeduinoProtocol "") ∧
    "n-plain" ∈ connectAttempts (newSpeeduinoProtocol "") := by
  refine ⟨rfl, rfl, rfl, ?_, ?_⟩ <;> decide

/-- C9 amended: the configured protocol is one of
`{auto, secondary, msenvelope}` with `auto` the default; a driver forced
to `secondary` never issues msEnvelope handshakes and one forced to
`msenvelope` never issues plain handshakes, while `auto` tries the
msEnvelope family first and then falls back to the plain family. -/
theorem connect_protocol_selection :
    tryMsEnvelope "secondary" = false ∧
    trySecondary "msenvelope" = false ∧
    connectAttempts "secondary" = ["n-plain", "A-plain"] ∧
    connectAttempts "msenvelope" = ["Q-msenvelope", "r-msenvelope"] ∧
    connectAttempts "auto" =
      ["Q-msenvelope", "r-msenvelope", "n-plain", "A-plain"] ∧
    newSpeeduinoProtocol "" = "auto" ∧
    (∀ p : String, p ≠ "" → newSpeeduinoProtocol p = p) := by
  refine ⟨rfl, rfl, by decide, by decide, by decide, rfl, ?_⟩
  intro p hp
  rw [newSpeeduinoProtocol, if_neg hp]

/-- C9 witness: a non-empty configured protocol is kept as configured. -/
theorem connect_protocol_selection_witness :
    ("secondary" : String) ≠ "" ∧ newSpeeduinoProtocol "secondary" = "secondary" :=
  ⟨by decide, connect_protocol_selection.2.2.2.2.2.2 "secondary" (by decide)⟩

/-- C10 counterexample: an RMC sentence with status `"V"` but fewer than
ten fields is ignored entirely — the valid flag is not cleared and the
timestamp is not updated. -/
theorem parseRMC_short_counterexample :
    parseRMC { Valid := true, Timestamp := "old".toList }
        ("$GPRMC,120000,V".toList) =
      { Valid := true, Timestamp := "old".toList } ∧
    ({ Valid := true, Timestamp := "old".toList } : GpsData).Valid = true :=
  ⟨rfl, rfl⟩

/-- C10 amended: for every RMC sentence with at least ten comma-separated
fields whose status field is not `"A"`, parsing sets the valid flag to
false and updates the timestamp, leaving latitude, longitude, speed, and
heading untouched. -/
theorem parseRMC_invalid_status (fix : GpsData) (line : List Char)
    (h10 : 10 ≤ (splitNMEA line).length)
    (hA : (splitNMEA line).getD 2 [] ≠ ['A']) :
    parseRMC fix line =
      { fix with Timestamp := (splitNMEA line).getD 1 [], Valid := false } := by
  rw [parseRMC]
  rw [if_neg (by omega)]
  have hdec : decide ((splitNMEA line).getD 2 [] = ['A']) = false :=
    decide_eq_false hA
  simp only [hdec]
  rfl

/-- C10 witness: the amended theorem applied to a full twelve-field RMC
sentence with status `"V"`. -/
theorem parseRMC_invalid_status_witness :
    10 ≤ (splitNMEA
      ("$GPRMC,123519,V,4807.038,N,01131.000,E,022.4,084.4,230394,003.1,W".toList)).length ∧
    parseRMC { Valid := true, Speed := 9 }
        ("$GPRMC,123519,V,4807.038,N,01131.000,E,022.4,084.4,230394,003.1,W".toList) =
      { ({ Valid := true, Speed := 9 } : GpsData) with
        Timestamp := (splitNMEA
          ("$GPRMC,123519,V,4807.038,N,01131.000,E,022.4,084.4,230394,003.1,W".toList)).getD 1 []
        Valid := false } :=
  ⟨by decide,
    parseRMC_invalid_status { Valid := true, Speed := 9 }
      ("$GPRMC,123519,V,4807.038,N,01131.000,E,022.4,084.4,230394,003.1,W".toList)
      (by decide) (by decide)⟩

end GoEfiDash
